import Mathlib

/-!
A shallow embedding of the PyGran repository packaging script (setup.py).

The script imports os, numpy, setuptools (setup, find_packages) and
Cython.Build.cythonize, defines a helper `read`, and calls `setup(...)`
with a fixed set of keyword arguments.  We model the filesystem as a
finite map from paths (lists of components) to file contents, give the
semantics of the external calls the script makes (opening and reading a
file, package discovery, glob expansion and cythonization, numpy header
lookup), and embed the script as a function from a filesystem state and
an invocation context to either an error or the argument record passed
to the packaging system.
-/

namespace PyGranSetup

/-- A filesystem: a finite association of absolute paths (as component
lists, no separators) to file contents.  Only files are stored;
directories are those path prefixes under which some file lives. -/
structure FS where
  files : List (List String × String)
deriving DecidableEq, Repr

/-- A Python path value: a flag for absoluteness plus components.
`__file__` and the arguments of os.path functions are such values. -/
structure PyPath where
  absolute : Bool
  comps : List String
deriving DecidableEq, Repr

/-- Resolution of a path against the current working directory, as the
operating system does when the script opens a file: an absolute path
stands alone, a relative one is interpreted under the cwd. -/
def resolve (cwd : List String) (p : PyPath) : List String :=
  if p.absolute then p.comps else cwd ++ p.comps

/-- os.path.dirname: drop the final component (for paths written without
a trailing separator).  dirname "setup.py" = "", dirname "a/b" = "a". -/
def pyDirname (p : PyPath) : PyPath :=
  { absolute := p.absolute, comps := p.comps.dropLast }

/-- os.path.join of a directory path with a plain file name: append the
name as one more component (join "" f = f, join "a" f = "a/f"). -/
def pyJoin (d : PyPath) (fname : String) : PyPath :=
  { absolute := d.absolute, comps := d.comps ++ [fname] }

/-- Whether a file exists at an absolute path. -/
def hasFile (fs : FS) (p : List String) : Bool :=
  (fs.files.lookup p).isSome

/-- Python open(path).read(): the whole contents of the file at the
resolved path, or a FileNotFoundError when no such file exists. -/
def openRead (fs : FS) (p : List String) : Except String String :=
  match fs.files.lookup p with
  | some c => Except.ok c
  | none => Except.error "FileNotFoundError: No such file or directory"

/-- The script helper:
`def read(fname): return open(os.path.join(os.path.dirname(__file__), fname)).read()`.
`file` is the value of `__file__`, `cwd` the process working directory
against which a relative path is resolved by `open`. -/
def read (fs : FS) (cwd : List String) (file : PyPath) (fname : String) :
    Except String String :=
  openRead fs (resolve cwd (pyJoin (pyDirname file) fname))

/-- All strict prefixes of a component list (shortest first). -/
def properPrefixes : List String → List (List String)
  | [] => []
  | a :: as => [] :: (properPrefixes as).map (a :: ·)

/-- All nonempty prefixes of a component list, the list itself included. -/
def nonemptyPrefixes : List String → List (List String)
  | [] => []
  | a :: as => [a] :: (nonemptyPrefixes as).map (a :: ·)

/-- The directories (relative component lists) above a file path `q`,
taken relative to a root: the nonempty strict prefixes of the remainder
of `q` under `root`.  Empty when `q` does not live under `root`. -/
def relDirs (root q : List String) : List (List String) :=
  if root.isPrefixOf q then
    (properPrefixes (q.drop root.length)).filter (fun d => !d.isEmpty)
  else []

/-- Modelled from the documented semantics of setuptools
`find_packages` (external to this repository): whether a relative
directory is reported as a package.  The walk only descends into
package directories, so every nonempty prefix of the directory must
hold an `__init__.py`, and a component containing a dot is skipped. -/
def looksLikePackageChain (fs : FS) (root : List String) (d : List String) : Bool :=
  !d.isEmpty
    && d.all (fun c => !(c.data.contains '.'))
    && (nonemptyPrefixes d).all (fun p => hasFile fs (root ++ p ++ ["__init__.py"]))

/-- Modelled from the documented semantics of setuptools
`find_packages()` (external to this repository): called with no
argument it walks the current working directory and returns every
directory all of whose path components carry an `__init__.py`. -/
def find_packages (fs : FS) (root : List String) : List (List String) :=
  ((fs.files.map Prod.fst).flatMap (relDirs root)).dedup.filter
    (looksLikePackageChain fs root)

/-- Whether a file name is hidden in the glob sense: it starts with a
dot, which the glob wildcard `*` does not match. -/
def isHiddenName (f : String) : Bool :=
  match f.data with
  | [] => false
  | c :: _ => c == '.'

/-- Whether a file name matches the glob component "*.pyx": it ends in
".pyx" and is not hidden. -/
def matchesPyx (f : String) : Bool :=
  ".pyx".data.isSuffixOf f.data && !isHiddenName f

/-- The files matched by the relative glob pattern
"PyDEM/Analyzer/*.pyx", resolved against the invocation directory:
files directly inside root/PyDEM/Analyzer whose name matches "*.pyx". -/
def globAnalyzerPyx (fs : FS) (root : List String) : List (List String) :=
  (fs.files.map Prod.fst).filter (fun q =>
    root.isPrefixOf q &&
      match q.drop root.length with
      | [d1, d2, f] => d1 == "PyDEM" && d2 == "Analyzer" && matchesPyx f
      | _ => false)

/-- Modelled from the spec: `cythonize` is external (Cython) and its
sources are not part of this repository.  Per the spec, building fails
when the extension-source glob matches nothing ("the compilation step
has nothing to compile"); on a nonempty match it yields the extension
modules built from the matched sources. -/
def cythonize (fs : FS) (root : List String) : Except String (List (List String)) :=
  match globAnalyzerPyx fs root with
  | [] => Except.error "PyDEM/Analyzer/*.pyx does not match any files"
  | ms => Except.ok ms

/-- The record of keyword arguments the script passes to `setup`. -/
structure SetupArgs where
  name : String
  version : String
  author : String
  author_email : String
  description : String
  license : String
  keywords : String
  url : String
  packages : List (List String)
  package_dir : List (String × String)
  package_data : List (String × List String)
  install_requires : List String
  long_description : String
  classifiers : List String
  zip_safe : Bool
  ext_modules : List (List String)
  include_dirs : List String
deriving DecidableEq, Repr

/-- The argument record built by the script, given the already-computed
long description and extension list and the numpy include directory
(numpy.get_include() is external; its value is a parameter). -/
def mkArgs (fs : FS) (cwd : List String) (ld : String)
    (ext : List (List String)) (npInclude : String) : SetupArgs :=
  { name := "PyDEM"
    version := "0.0.1"
    author := "Andrew Abi-Mansour"
    author_email := "andrew.gaam@gmail.com"
    description := "A set of tools for running, analyzing, and visualizing DEM simulations"
    license := "GNU v3"
    keywords := "Discrete Element Method, Granular Materials"
    url := "https://github.com/Andrew-AbiMansour/PyDEM"
    packages := find_packages fs cwd
    package_dir := [("PyDEM", "PyDEM")]
    package_data := [("", [".config"])]
    install_requires := ["numpy", "pyvtk", "pytools>=2011.2", "pygmsh"]
    long_description := ld
    classifiers :=
      ["Development Status :: 1 - Alpha", "Topic :: Utilities",
       "License :: GNU License"]
    zip_safe := false
    ext_modules := ext
    include_dirs := [npInclude] }

/-- Running the script body: Python evaluates the keyword arguments of
the `setup(...)` call left to right, so `read('README.md')` (the
long_description argument) runs before `cythonize(...)` (the
ext_modules argument); an exception in either aborts the call before
`setup` is entered.  The pure arguments (literals, find_packages, the
numpy include lookup) cannot raise in this model. -/
def runSetupScript (fs : FS) (cwd : List String) (file : PyPath)
    (npInclude : String) : Except String SetupArgs :=
  match read fs cwd file "README.md" with
  | Except.error e => Except.error e
  | Except.ok ld =>
      match cythonize fs cwd with
      | Except.error e => Except.error e
      | Except.ok ext => Except.ok (mkArgs fs cwd ld ext npInclude)

/-- The list of invocations of the packaging-system entry point made by
one run of the script: exactly one on success, none when an argument
raised. -/
def setupCalls (fs : FS) (cwd : List String) (file : PyPath)
    (npInclude : String) : List SetupArgs :=
  match runSetupScript fs cwd file npInclude with
  | Except.ok a => [a]
  | Except.error _ => []

/-- Split a character list at the first occurrence of the two-character
marker ">=", returning the parts before and after it, if present. -/
def splitReqAux : List Char → Option (List Char × List Char)
  | [] => none
  | [_] => none
  | c1 :: c2 :: rest =>
      if c1 == '>' && c2 == '=' then some ([], rest)
      else (splitReqAux (c2 :: rest)).map (fun pr => (c1 :: pr.1, pr.2))

/-- Splitting one requirement string of install_requires into the
library name and, when a ">=" marker is present, its minimum version. -/
def parseReq (s : String) : String × Option String :=
  match splitReqAux s.data with
  | none => (s, none)
  | some (n, v) => (String.mk n, some (String.mk v))

/-- Follows the spec words of the packages claim, for comparison with
the source: the packages discoverable under the declared package
directory (the PyDEM directory that package_dir maps), namely PyDEM
itself when it is a package, together with every package found inside
it (carrying the PyDEM prefix). -/
def specPackagesUnderDecl (fs : FS) (root : List String) : List (List String) :=
  (if hasFile fs (root ++ ["PyDEM", "__init__.py"]) then [["PyDEM"]] else [])
    ++ (find_packages fs (root ++ ["PyDEM"])).map (fun d => "PyDEM" :: d)

/-! ### Helper lemmas -/

lemma read_eq_openRead_scriptdir (fs : FS) (cwd : List String) (file : PyPath)
    (fname : String) (h : file.comps ≠ []) :
    read fs cwd file fname = openRead fs ((resolve cwd file).dropLast ++ [fname]) := by
  unfold read resolve pyJoin pyDirname
  cases hab : file.absolute
  · simp only [Bool.false_eq_true, if_false]
    rw [List.dropLast_append_of_ne_nil cwd h, List.append_assoc]
  · simp only [if_true]

lemma runSetupScript_ok_inv {fs : FS} {cwd : List String} {file : PyPath}
    {np : String} {a : SetupArgs}
    (h : runSetupScript fs cwd file np = Except.ok a) :
    ∃ ld ext, read fs cwd file "README.md" = Except.ok ld
      ∧ cythonize fs cwd = Except.ok ext ∧ a = mkArgs fs cwd ld ext np := by
  unfold runSetupScript at h
  cases hr : read fs cwd file "README.md" <;> rw [hr] at h
  · exact absurd h (by simp)
  · cases hc : cythonize fs cwd <;> rw [hc] at h
    · exact absurd h (by simp)
    · exact ⟨_, _, rfl, rfl, (Except.ok.inj h).symm⟩

lemma cythonize_ok_inv {fs : FS} {root : List String} {ext : List (List String)}
    (h : cythonize fs root = Except.ok ext) :
    ext = globAnalyzerPyx fs root := by
  unfold cythonize at h
  cases hg : globAnalyzerPyx fs root <;> rw [hg] at h
  · exact absurd h (by simp)
  · exact (Except.ok.inj h).symm

lemma globAnalyzerPyx_mem {fs : FS} {root q : List String}
    (h : q ∈ globAnalyzerPyx fs root) :
    ∃ f, q = root ++ ["PyDEM", "Analyzer", f] ∧ matchesPyx f = true := by
  unfold globAnalyzerPyx at h
  obtain ⟨-, hp⟩ := List.mem_filter.mp h
  rw [Bool.and_eq_true] at hp
  obtain ⟨hpre, hmatch⟩ := hp
  have hq : root ++ q.drop root.length = q :=
    List.prefix_iff_eq_append.mp (List.isPrefixOf_iff_prefix.mp hpre)
  cases hd : q.drop root.length with
  | nil => rw [hd] at hmatch; exact absurd hmatch (by simp)
  | cons d1 t1 =>
    cases t1 with
    | nil => rw [hd] at hmatch; exact absurd hmatch (by simp)
    | cons d2 t2 =>
      cases t2 with
      | nil => rw [hd] at hmatch; exact absurd hmatch (by simp)
      | cons f t3 =>
        cases t3 with
        | nil =>
          rw [hd] at hmatch
          simp only [Bool.and_eq_true, beq_iff_eq] at hmatch
          obtain ⟨⟨h1, h2⟩, h3⟩ := hmatch
          subst h1; subst h2
          exact ⟨f, by rw [← hq, hd], h3⟩
        | cons g t4 => rw [hd] at hmatch; exact absurd hmatch (by simp)

/-! ### Claim theorems -/

/-- C10: for every file name, the read helper resolves the name against
the directory containing the setup script itself
(os.path.dirname(__file__)) — the resolved target is the script
directory with the name appended, whatever the working directory is —
and returns the entire contents of the file found there. -/
theorem read_resolves_against_script_dir (fs : FS) (cwd : List String)
    (file : PyPath) (fname : String) (h : file.comps ≠ []) :
    read fs cwd file fname = openRead fs ((resolve cwd file).dropLast ++ [fname])
      ∧ ∀ c, fs.files.lookup ((resolve cwd file).dropLast ++ [fname]) = some c →
          read fs cwd file fname = Except.ok c := by
  refine ⟨read_eq_openRead_scriptdir fs cwd file fname h, fun c hc => ?_⟩
  rw [read_eq_openRead_scriptdir fs cwd file fname h]
  simp [openRead, hc]

/-- Witness for C10 at a concrete state: the script lives at
home/proj/setup.py, the process runs from home, and the helper reads
home/proj/README.md. -/
theorem read_resolves_against_script_dir_witness :
    (PyPath.mk false ["proj", "setup.py"]).comps ≠ [] ∧
      (read (FS.mk [(["home", "proj", "README.md"], "contents")]) ["home"]
            ⟨false, ["proj", "setup.py"]⟩ "README.md" =
          openRead (FS.mk [(["home", "proj", "README.md"], "contents")])
            ((resolve ["home"] ⟨false, ["proj", "setup.py"]⟩).dropLast ++ ["README.md"])
        ∧ ∀ c, (FS.mk [(["home", "proj", "README.md"], "contents")]).files.lookup
              ((resolve ["home"] ⟨false, ["proj", "setup.py"]⟩).dropLast ++ ["README.md"]) =
                some c →
            read (FS.mk [(["home", "proj", "README.md"], "contents")]) ["home"]
                ⟨false, ["proj", "setup.py"]⟩ "README.md" = Except.ok c) :=
  ⟨by decide,
   read_resolves_against_script_dir (FS.mk [(["home", "proj", "README.md"], "contents")])
     ["home"] ⟨false, ["proj", "setup.py"]⟩ "README.md" (by decide)⟩

/-- C2: the long description passed to the packaging system equals the
contents of the README.md that sits in the script directory: whenever
that file holds contents c and the run reaches setup, the value of
long_description is exactly c. -/
theorem long_description_is_readme_contents (fs : FS) (cwd : List String)
    (file : PyPath) (np : String) (c : String) (a : SetupArgs)
    (hf : file.comps ≠ [])
    (hc : fs.files.lookup ((resolve cwd file).dropLast ++ ["README.md"]) = some c)
    (h : runSetupScript fs cwd file np = Except.ok a) :
    a.long_description = c := by
  obtain ⟨ld, ext, hr, -, ha⟩ := runSetupScript_ok_inv h
  rw [read_eq_openRead_scriptdir fs cwd file _ hf] at hr
  simp only [openRead, hc] at hr
  subst ha
  exact (Except.ok.inj hr).symm

/-- Witness for C2 at a concrete state in which the build succeeds: the
README holds "hello" and the long description equals "hello". -/
theorem long_description_is_readme_contents_witness :
    ((PyPath.mk false ["setup.py"]).comps ≠ []
      ∧ (FS.mk [(["README.md"], "hello"),
            (["PyDEM", "Analyzer", "core.pyx"], "x")]).files.lookup
          ((resolve [] ⟨false, ["setup.py"]⟩).dropLast ++ ["README.md"]) = some "hello"
      ∧ runSetupScript
          ⟨[(["README.md"], "hello"), (["PyDEM", "Analyzer", "core.pyx"], "x")]⟩
          [] ⟨false, ["setup.py"]⟩ "np" =
        Except.ok (mkArgs
          ⟨[(["README.md"], "hello"), (["PyDEM", "Analyzer", "core.pyx"], "x")]⟩
          [] "hello" [["PyDEM", "Analyzer", "core.pyx"]] "np"))
      ∧ (mkArgs ⟨[(["README.md"], "hello"), (["PyDEM", "Analyzer", "core.pyx"], "x")]⟩
          [] "hello" [["PyDEM", "Analyzer", "core.pyx"]] "np").long_description = "hello" :=
  ⟨⟨by decide, by decide, by rfl⟩,
   long_description_is_readme_contents
     ⟨[(["README.md"], "hello"), (["PyDEM", "Analyzer", "core.pyx"], "x")]⟩
     [] ⟨false, ["setup.py"]⟩ "np" "hello" _ (by decide) (by decide) (by rfl)⟩

/-- C5: when no README.md exists in the script directory, the run
raises before completing: the script terminates with an error and setup
is never reached. -/
theorem missing_readme_aborts_build (fs : FS) (cwd : List String) (file : PyPath)
    (np : String) (hf : file.comps ≠ [])
    (h : fs.files.lookup ((resolve cwd file).dropLast ++ ["README.md"]) = none) :
    ∃ e, runSetupScript fs cwd file np = Except.error e := by
  refine ⟨"FileNotFoundError: No such file or directory", ?_⟩
  unfold runSetupScript
  rw [read_eq_openRead_scriptdir fs cwd file _ hf]
  simp [openRead, h]

/-- Witness for C5 at a concrete state: an empty filesystem, where the
README is absent and the run errors. -/
theorem missing_readme_aborts_build_witness :
    ((PyPath.mk false ["setup.py"]).comps ≠ []
      ∧ (FS.mk []).files.lookup
          ((resolve [] ⟨false, ["setup.py"]⟩).dropLast ++ ["README.md"]) = none)
      ∧ ∃ e, runSetupScript ⟨[]⟩ [] ⟨false, ["setup.py"]⟩ "np" = Except.error e :=
  ⟨⟨by decide, by decide⟩,
   missing_readme_aborts_build ⟨[]⟩ [] ⟨false, ["setup.py"]⟩ "np" (by decide) (by decide)⟩

/-- C3: when the glob PyDEM/Analyzer/*.pyx matches no file, the run
terminates with an error rather than registering a distribution
(either the cythonization step fails on the empty match, or an earlier
argument already raised). -/
theorem empty_pyx_glob_aborts_build (fs : FS) (cwd : List String) (file : PyPath)
    (np : String) (h : globAnalyzerPyx fs cwd = []) :
    ∃ e, runSetupScript fs cwd file np = Except.error e := by
  unfold runSetupScript
  cases hr : read fs cwd file "README.md" with
  | error e => exact ⟨e, rfl⟩
  | ok ld =>
    refine ⟨"PyDEM/Analyzer/*.pyx does not match any files", ?_⟩
    simp [cythonize, h]

/-- Witness for C3 at a concrete state: the README exists but no .pyx
file does, and the run errors. -/
theorem empty_pyx_glob_aborts_build_witness :
    globAnalyzerPyx ⟨[(["README.md"], "r")]⟩ [] = []
      ∧ ∃ e, runSetupScript ⟨[(["README.md"], "r")]⟩ [] ⟨false, ["setup.py"]⟩ "np" =
          Except.error e :=
  ⟨by decide,
   empty_pyx_glob_aborts_build ⟨[(["README.md"], "r")]⟩ [] ⟨false, ["setup.py"]⟩ "np"
     (by decide)⟩

/-- C1: the declared runtime dependency list is exactly the four
libraries numpy, pyvtk, pytools and pygmsh, with pytools alone carrying
the minimum-version constraint >=2011.2 and the other three
unconstrained. -/
theorem install_requires_exactly_four (fs : FS) (cwd : List String) (file : PyPath)
    (np : String) (a : SetupArgs) (h : runSetupScript fs cwd file np = Except.ok a) :
    a.install_requires.map parseReq =
      [("numpy", none), ("pyvtk", none), ("pytools", some "2011.2"), ("pygmsh", none)] := by
  obtain ⟨ld, ext, -, -, ha⟩ := runSetupScript_ok_inv h
  subst ha
  rfl

/-- Witness for C1 at a concrete state in which the build succeeds. -/
theorem install_requires_exactly_four_witness :
    runSetupScript ⟨[(["README.md"], "r"), (["PyDEM", "Analyzer", "sim.pyx"], "x")]⟩
        [] ⟨false, ["setup.py"]⟩ "np" =
      Except.ok (mkArgs ⟨[(["README.md"], "r"), (["PyDEM", "Analyzer", "sim.pyx"], "x")]⟩
        [] "r" [["PyDEM", "Analyzer", "sim.pyx"]] "np")
      ∧ (mkArgs ⟨[(["README.md"], "r"), (["PyDEM", "Analyzer", "sim.pyx"], "x")]⟩
          [] "r" [["PyDEM", "Analyzer", "sim.pyx"]] "np").install_requires.map parseReq =
        [("numpy", none), ("pyvtk", none), ("pytools", some "2011.2"), ("pygmsh", none)] :=
  ⟨by rfl,
   install_requires_exactly_four
     ⟨[(["README.md"], "r"), (["PyDEM", "Analyzer", "sim.pyx"], "x")]⟩
     [] ⟨false, ["setup.py"]⟩ "np" _ (by rfl)⟩

/-- C6: the extension modules passed to the packaging system are the
cythonization of the single glob PyDEM/Analyzer/*.pyx — every module
comes from a *.pyx file directly inside that one directory — and the
include directories contain numpy's header directory. -/
theorem ext_modules_from_analyzer_glob (fs : FS) (cwd : List String) (file : PyPath)
    (np : String) (a : SetupArgs) (h : runSetupScript fs cwd file np = Except.ok a) :
    a.ext_modules = globAnalyzerPyx fs cwd
      ∧ np ∈ a.include_dirs
      ∧ ∀ q ∈ a.ext_modules, ∃ f, q = cwd ++ ["PyDEM", "Analyzer", f]
          ∧ matchesPyx f = true := by
  obtain ⟨ld, ext, -, hc, ha⟩ := runSetupScript_ok_inv h
  subst ha
  have hext : ext = globAnalyzerPyx fs cwd := cythonize_ok_inv hc
  refine ⟨hext, by simp [mkArgs], fun q hq => ?_⟩
  exact globAnalyzerPyx_mem (hext ▸ hq)

/-- Witness for C6 at a concrete state in which the build succeeds. -/
theorem ext_modules_from_analyzer_glob_witness :
    runSetupScript ⟨[(["README.md"], "r"), (["PyDEM", "Analyzer", "mesh.pyx"], "x")]⟩
        [] ⟨false, ["setup.py"]⟩ "numpy-include" =
      Except.ok (mkArgs ⟨[(["README.md"], "r"), (["PyDEM", "Analyzer", "mesh.pyx"], "x")]⟩
        [] "r" [["PyDEM", "Analyzer", "mesh.pyx"]] "numpy-include")
      ∧ ((mkArgs ⟨[(["README.md"], "r"), (["PyDEM", "Analyzer", "mesh.pyx"], "x")]⟩
            [] "r" [["PyDEM", "Analyzer", "mesh.pyx"]] "numpy-include").ext_modules =
          globAnalyzerPyx ⟨[(["README.md"], "r"), (["PyDEM", "Analyzer", "mesh.pyx"], "x")]⟩ []
        ∧ "numpy-include" ∈ (mkArgs
            ⟨[(["README.md"], "r"), (["PyDEM", "Analyzer", "mesh.pyx"], "x")]⟩
            [] "r" [["PyDEM", "Analyzer", "mesh.pyx"]] "numpy-include").include_dirs
        ∧ ∀ q ∈ (mkArgs ⟨[(["README.md"], "r"), (["PyDEM", "Analyzer", "mesh.pyx"], "x")]⟩
            [] "r" [["PyDEM", "Analyzer", "mesh.pyx"]] "numpy-include").ext_modules,
            ∃ f, q = [] ++ ["PyDEM", "Analyzer", f] ∧ matchesPyx f = true) :=
  ⟨by rfl,
   ext_modules_from_analyzer_glob
     ⟨[(["README.md"], "r"), (["PyDEM", "Analyzer", "mesh.pyx"], "x")]⟩
     [] ⟨false, ["setup.py"]⟩ "numpy-include" _ (by rfl)⟩

/-- C7: the metadata declares the package non-zip-safe and carries the
alpha development-status classifier in its classifier list. -/
theorem zip_safe_false_alpha_classifier (fs : FS) (cwd : List String) (file : PyPath)
    (np : String) (a : SetupArgs) (h : runSetupScript fs cwd file np = Except.ok a) :
    a.zip_safe = false ∧ "Development Status :: 1 - Alpha" ∈ a.classifiers := by
  obtain ⟨ld, ext, -, -, ha⟩ := runSetupScript_ok_inv h
  subst ha
  exact ⟨rfl, by simp [mkArgs]⟩

/-- Witness for C7 at a concrete state in which the build succeeds. -/
theorem zip_safe_false_alpha_classifier_witness :
    runSetupScript ⟨[(["README.md"], "r"), (["PyDEM", "Analyzer", "vtk.pyx"], "x")]⟩
        [] ⟨false, ["setup.py"]⟩ "np" =
      Except.ok (mkArgs ⟨[(["README.md"], "r"), (["PyDEM", "Analyzer", "vtk.pyx"], "x")]⟩
        [] "r" [["PyDEM", "Analyzer", "vtk.pyx"]] "np")
      ∧ ((mkArgs ⟨[(["README.md"], "r"), (["PyDEM", "Analyzer", "vtk.pyx"], "x")]⟩
            [] "r" [["PyDEM", "Analyzer", "vtk.pyx"]] "np").zip_safe = false
        ∧ "Development Status :: 1 - Alpha" ∈ (mkArgs
            ⟨[(["README.md"], "r"), (["PyDEM", "Analyzer", "vtk.pyx"], "x")]⟩
            [] "r" [["PyDEM", "Analyzer", "vtk.pyx"]] "np").classifiers) :=
  ⟨by rfl,
   zip_safe_false_alpha_classifier
     ⟨[(["README.md"], "r"), (["PyDEM", "Analyzer", "vtk.pyx"], "x")]⟩
     [] ⟨false, ["setup.py"]⟩ "np" _ (by rfl)⟩

/-- C8: every run that reaches the packaging system registers the
literal package name "PyDEM" and the literal version "0.0.1", whatever
the filesystem state, the working directory or the script location. -/
theorem name_and_version_literal (fs : FS) (cwd : List String) (file : PyPath)
    (np : String) (a : SetupArgs) (h : runSetupScript fs cwd file np = Except.ok a) :
    a.name = "PyDEM" ∧ a.version = "0.0.1" := by
  obtain ⟨ld, ext, -, -, ha⟩ := runSetupScript_ok_inv h
  subst ha
  exact ⟨rfl, rfl⟩

/-- Witness for C8 at a concrete state in which the build succeeds. -/
theorem name_and_version_literal_witness :
    runSetupScript ⟨[(["README.md"], "r"), (["PyDEM", "Analyzer", "dem.pyx"], "x")]⟩
        [] ⟨false, ["setup.py"]⟩ "np" =
      Except.ok (mkArgs ⟨[(["README.md"], "r"), (["PyDEM", "Analyzer", "dem.pyx"], "x")]⟩
        [] "r" [["PyDEM", "Analyzer", "dem.pyx"]] "np")
      ∧ ((mkArgs ⟨[(["README.md"], "r"), (["PyDEM", "Analyzer", "dem.pyx"], "x")]⟩
            [] "r" [["PyDEM", "Analyzer", "dem.pyx"]] "np").name = "PyDEM"
        ∧ (mkArgs ⟨[(["README.md"], "r"), (["PyDEM", "Analyzer", "dem.pyx"], "x")]⟩
            [] "r" [["PyDEM", "Analyzer", "dem.pyx"]] "np").version = "0.0.1") :=
  ⟨by rfl,
   name_and_version_literal
     ⟨[(["README.md"], "r"), (["PyDEM", "Analyzer", "dem.pyx"], "x")]⟩
     [] ⟨false, ["setup.py"]⟩ "np" _ (by rfl)⟩

/-- C9: registration is atomic with respect to argument failures —
when reading the README or cythonizing the sources raises, the
packaging entry point is never invoked; the script makes no setup
call. -/
theorem setup_uncalled_on_argument_failure (fs : FS) (cwd : List String)
    (file : PyPath) (np : String)
    (h : (∃ e, read fs cwd file "README.md" = Except.error e)
      ∨ ∃ e, cythonize fs cwd = Except.error e) :
    setupCalls fs cwd file np = [] := by
  unfold setupCalls runSetupScript
  rcases h with ⟨e, he⟩ | ⟨e, he⟩
  · rw [he]
  · cases hr : read fs cwd file "README.md" with
    | error e2 => rfl
    | ok ld => rw [he]

/-- Witness for C9 at a concrete state: on an empty filesystem the
README read raises and no setup call is made. -/
theorem setup_uncalled_on_argument_failure_witness :
    ((∃ e, read (FS.mk []) [] ⟨false, ["setup.py"]⟩ "README.md" = Except.error e)
      ∨ ∃ e, cythonize (FS.mk []) [] = Except.error e)
      ∧ setupCalls ⟨[]⟩ [] ⟨false, ["setup.py"]⟩ "np" = [] :=
  ⟨Or.inl ⟨"FileNotFoundError: No such file or directory", by rfl⟩,
   setup_uncalled_on_argument_failure ⟨[]⟩ [] ⟨false, ["setup.py"]⟩ "np"
     (Or.inl ⟨"FileNotFoundError: No such file or directory", by rfl⟩)⟩

/-- A filesystem with two top-level packages, PyDEM and Other, beside
the README and one extension source.  It separates package discovery
from the current directory from discovery under the PyDEM directory. -/
def fsTwoTopPackages : FS :=
  ⟨[(["PyDEM", "__init__.py"], ""), (["Other", "__init__.py"], ""),
    (["README.md"], "readme"), (["PyDEM", "Analyzer", "core.pyx"], "")]⟩

/-- C4 counterexample: find_packages() is called with no argument, so
it discovers packages under the invocation directory, not only under
the PyDEM directory that package_dir declares.  On a filesystem with a
second top-level package Other, the build succeeds and passes Other
among the packages even though Other is not discoverable under the
declared package directory. -/
theorem packages_beyond_declared_dir :
    runSetupScript fsTwoTopPackages [] ⟨false, ["setup.py"]⟩ "npinc" =
        Except.ok (mkArgs fsTwoTopPackages [] "readme"
          [["PyDEM", "Analyzer", "core.pyx"]] "npinc")
      ∧ ["Other"] ∈ (mkArgs fsTwoTopPackages [] "readme"
          [["PyDEM", "Analyzer", "core.pyx"]] "npinc").packages
      ∧ ["Other"] ∉ specPackagesUnderDecl fsTwoTopPackages [] :=
  ⟨by rfl, by decide, by decide⟩

/-- C4 as amended: the packages argument is exactly the set of
packages setuptools discovers under the invocation (current working)
directory — every directory all of whose path components carry an
__init__.py — not restricted to the directory named by package_dir. -/
theorem packages_are_cwd_discovery (fs : FS) (cwd : List String) (file : PyPath)
    (np : String) (a : SetupArgs) (h : runSetupScript fs cwd file np = Except.ok a) :
    a.packages = find_packages fs cwd
      ∧ ∀ d ∈ a.packages, looksLikePackageChain fs cwd d = true := by
  obtain ⟨ld, ext, -, -, ha⟩ := runSetupScript_ok_inv h
  subst ha
  refine ⟨rfl, fun d hd => ?_⟩
  have hd2 : d ∈ find_packages fs cwd := hd
  unfold find_packages at hd2
  exact (List.mem_filter.mp hd2).2

/-- Witness for the amended C4 at the two-top-package state. -/
theorem packages_are_cwd_discovery_witness :
    runSetupScript fsTwoTopPackages [] ⟨false, ["setup.py"]⟩ "npinc" =
      Except.ok (mkArgs fsTwoTopPackages [] "readme"
        [["PyDEM", "Analyzer", "core.pyx"]] "npinc")
      ∧ ((mkArgs fsTwoTopPackages [] "readme"
            [["PyDEM", "Analyzer", "core.pyx"]] "npinc").packages =
          find_packages fsTwoTopPackages []
        ∧ ∀ d ∈ (mkArgs fsTwoTopPackages [] "readme"
            [["PyDEM", "Analyzer", "core.pyx"]] "npinc").packages,
            looksLikePackageChain fsTwoTopPackages [] d = true) :=
  ⟨by rfl,
   packages_are_cwd_discovery fsTwoTopPackages [] ⟨false, ["setup.py"]⟩ "npinc" _ (by rfl)⟩

end PyGranSetup
